import Mathlib

/-!
Verification of the dialogue-orchestration core of the voice-phishing
consultation assistant (repository `merge_with_scamout`).

Shallow embedding of:
* `src/core/graph.py` (`StructuredVoicePhishingGraph`): answer parser,
  urgency classifier, slot-filling nodes, routing, turn loop;
* `src/core/hybrid_decision.py` (`HybridDecisionEngine`): the five
  escalation detectors and `should_use_gemini`;
* `src/core/hybrid_graph_system.py` (`HybridVoicePhishingGraph`): the AI
  processing node, rule fallback and emergency safety net;
* `src/services/gemini_assistant.py` (`GeminiAssistant`): reply
  validation/enhancement, raw-response parsing, fallbacks.

Conventions of the embedding:
* Python strings are Lean `String`s; character-level operations are done on
  `List Char`.  Python `str.strip` is modelled by `pyStrip` (drops
  whitespace at both ends), `str.lower` by `pyLower` (ASCII lowering; the
  Korean text used by the program is unaffected by case mapping).
* Python `re.search` on the fixed patterns of the source (all of the shape
  literal / `\d+` / `.*` / `.`) is modelled by a small executable matcher
  over token lists (`Tok`, `matchToks`, `reSearch`).
* Message timestamps carry no information used by any code path modelled
  here and are elided from `Msg`.
* The 0.0–1.0 detector scores of `hybrid_decision.py` are modelled exactly
  in tenths over `ℕ` (every constant in the source is a multiple of 0.1:
  a source score of 0.3 is the value 3 here, the cap `min(score, 1.0)` is
  `min score 10`, and a threshold such as 0.7 is 7).  This encoding is an
  order isomorphism for the additions, `min`/`max` and comparisons the
  source performs.
* The network call to the LLM is modelled by an explicit outcome value
  (`LLMOutcome`): the call raising, the API raising, a reply whose text is
  not valid JSON, or a parsed JSON reply.
-/

namespace Scamout

/-! ## Python string primitives -/

/-- Whitespace test used by `str.strip`. -/
def wsp (c : Char) : Bool := c.isWhitespace

/-- `str.strip` on a character list: drop whitespace at both ends. -/
def trimL (cs : List Char) : List Char :=
  ((cs.dropWhile wsp).reverse.dropWhile wsp).reverse

/-- Python `s.strip()`. -/
def pyStrip (s : String) : String := ⟨trimL s.toList⟩

/-- Python `s.lower()` (ASCII case mapping; identity on the Korean text). -/
def pyLower (s : String) : String := ⟨s.toList.map Char.toLower⟩

/-- `raw.strip().lower()` — the normalisation at the top of `_parse_answer`. -/
def pyNorm (s : String) : String := pyLower (pyStrip s)

/-- Does `n` occur at the head of `h`? (substring search helper). -/
def leadsWith : List Char → List Char → Bool
  | [], _ => true
  | _ :: _, [] => false
  | a :: as, b :: bs => a == b && leadsWith as bs

/-- Python `n in h` substring containment, on character lists. -/
def containsL (n : List Char) : List Char → Bool
  | [] => leadsWith n []
  | c :: t => leadsWith n (c :: t) || containsL n t

/-- Python `n in h` substring containment, on strings. -/
def containsS (n h : String) : Bool := containsL n.toList h.toList

/-- Python slice `s[:n]` (first `n` characters). -/
def pySlice (s : String) (n : Nat) : String := ⟨s.toList.take n⟩

/-! ## Answer parser (`StructuredVoicePhishingGraph._parse_answer`) -/

/-- The `answer_type` argument of `_parse_answer`. -/
inductive AType
  | yes_no
  | amount
  | time
  | other
deriving DecidableEq

/-- Affirmative word list of the `yes_no` branch. -/
def yesWords : List String :=
  ["네", "예", "맞아", "맛", "맛아", "맞", "웅", "엉", "yes", "응"]

/-- Negative word list of the `yes_no` branch. -/
def noWords : List String := ["아니", "no", "아님", "땡", "아닌"]

/-- A character matched by the `[\d,]+` run of the amount branch. -/
def isDigitComma (c : Char) : Bool := c.isDigit || c == ','

/-- First maximal run found by `re.findall(r'[\d,]+', answer)`. -/
def firstRun : List Char → Option (List Char)
  | [] => none
  | c :: t =>
      if isDigitComma c then some (c :: t.takeWhile isDigitComma)
      else firstRun t

/-- `int` on a non-empty digit string. -/
def digitsVal (ds : List Char) : Nat :=
  ds.foldl (fun n c => 10 * n + (c.toNat - 48)) 0

/-- Digit character for a value `< 10`. -/
def digitChar (d : Nat) : Char := Char.ofNat (48 + d)

/-- Decimal digits, most significant first (structural recursion on a fuel
bound so that the definition reduces in the kernel; `n + 1` fuel always
suffices since each digit consumes one unit). -/
def natDigitsAux : Nat → Nat → List Char
  | 0, _ => []
  | fuel + 1, n =>
      if n < 10 then [digitChar n]
      else natDigitsAux fuel (n / 10) ++ [digitChar (n % 10)]

/-- Decimal digits of `n`, most significant first. -/
def natDigits (n : Nat) : List Char := natDigitsAux (n + 1) n

/-- Insert `,` before every character at distance a multiple of three from
the start (input is the reversed digit list; the counter is the number of
characters still allowed before the next comma). -/
def commaGroupsAux : List Char → Nat → List Char
  | [], _ => []
  | c :: t, 0 => ',' :: c :: commaGroupsAux t 2
  | c :: t, k + 1 => c :: commaGroupsAux t k

/-- Python `f"{n:,}"` thousands-separated formatting. -/
def commaFormat (n : Nat) : String :=
  ⟨(commaGroupsAux (natDigits n).reverse 3).reverse⟩

/-- Relative-time phrase table of the `time` branch. -/
def timeMappings : List (String × String) :=
  [("오늘", "오늘"), ("어제", "어제"), ("그제", "그제"),
   ("일주일", "일주일 전"), ("한달", "한 달 전")]

/-- First table entry whose key occurs in the answer. -/
def timeLookup : List (String × String) → String → Option String
  | [], _ => none
  | (k, v) :: t, a => if containsS k a then some v else timeLookup t a

/-- Does the list match `\s*다$` exactly (whitespace then a final `다`)? -/
def wsDaL : List Char → Bool
  | [] => false
  | [c] => c == '다'
  | c :: t => wsp c && wsDaL t

/-- Does the list match `에?\s*다$` exactly? -/
def eWsDa (l : List Char) : Bool :=
  wsDaL l ||
    (match l with
     | '에' :: rest => wsDaL rest
     | _ => false)

/-- `re.sub(r'에?\s*다$', '', answer)`: remove the leftmost suffix matching
the anchored pattern. -/
def subDaEnd : List Char → List Char
  | [] => []
  | c :: t => if eWsDa (c :: t) then [] else c :: subDaEnd t

/-- `StructuredVoicePhishingGraph._parse_answer` (graph.py, lines 554-614). -/
def parseAnswer (raw : String) (t : AType) : String :=
  let answer := pyNorm raw
  match t with
  | .yes_no =>
      if yesWords.any (fun w => containsS w answer) then "네"
      else if noWords.any (fun w => containsS w answer) then "아니요"
      else "미확인"
  | .amount =>
      match firstRun answer.toList with
      | some run =>
          let ds := run.filter (fun c => c != ',')
          if ds.isEmpty then pyStrip answer
          else
            let a0 := digitsVal ds
            let a :=
              if containsS "억" answer then a0 * 100000000
              else if containsS "천만" answer then a0 * 10000000
              else if containsS "백만" answer then a0 * 1000000
              else if containsS "만" answer then a0 * 10000
              else a0
            commaFormat a ++ "원"
      | none => pyStrip answer
  | .time =>
      match timeLookup timeMappings answer with
      | some v => v
      | none =>
          if containsS "분" answer && containsS "전" answer then
            ⟨trimL (subDaEnd answer.toList)⟩
          else pyStrip answer
  | .other => pyStrip answer

/-! ## Regex matcher for the fixed patterns of `graph.py`

Every regex in `_assess_urgency_smart` is a sequence of literal text,
`\d+`, `.*` and `.`; `re.search` succeeds iff the token sequence matches
starting at some position.  `.`/`.*` match any character except `\n`;
`\d` matches a decimal digit. -/

/-- One token of a source regex. -/
inductive Tok
  | lit (s : List Char)
  | digits
  | star
  | dot

/-- Match the token sequence against a prefix of the text (existential,
backtracking semantics — equivalent to truthiness of `re.match`). -/
def matchToks : List Tok → List Char → Bool
  | [], _ => true
  | .lit [] :: ts, cs => matchToks ts cs
  | .lit (a :: as) :: ts, cs =>
      match cs with
      | [] => false
      | c :: cs' => a == c && matchToks (.lit as :: ts) cs'
  | .digits :: ts, cs =>
      match cs with
      | [] => false
      | c :: cs' => c.isDigit && (matchToks ts cs' || matchToks (.digits :: ts) cs')
  | .star :: ts, cs =>
      matchToks ts cs ||
        (match cs with
         | [] => false
         | c :: cs' => c != '\n' && matchToks (.star :: ts) cs')
  | .dot :: ts, cs =>
      match cs with
      | [] => false
      | c :: cs' => c != '\n' && matchToks ts cs'

/-- Truthiness of `re.search(pattern, text)`: match at some start position. -/
def reSearch (ts : List Tok) : List Char → Bool
  | [] => matchToks ts []
  | c :: t => matchToks ts (c :: t) || reSearch ts t

/-- `re.search` on a string. -/
def reSearchS (ts : List Tok) (s : String) : Bool := reSearch ts s.toList

/-- Literal-text token. -/
def litTok (s : String) : Tok := .lit s.toList

/-! ## Urgency classifier (`_assess_urgency_smart`, graph.py lines 143-221) -/

/-- Tier-1 high-urgency patterns (first match adds 8). -/
def highUrgencyPatterns : List (List Tok) :=
  [[.digits, litTok "억", .star, litTok "송금"],
   [.digits, litTok "만원", .star, litTok "보냈"],
   [litTok "송금", .star, .digits, litTok "분", .star, litTok "전"],
   [litTok "사기", .star, litTok "당했"],
   [litTok "돈", .star, litTok "털렸"],
   [litTok "계좌", .star, litTok "이체", .star, litTok "했"],
   [.digits, .star, litTok "보냈", .star, litTok "분", .star, litTok "전"]]

/-- Tier-2 medium-urgency patterns (first match adds 5). -/
def mediumUrgencyPatterns : List (List Tok) :=
  [[litTok "보이스", .star, litTok "피싱", .star, litTok "당했"],
   [litTok "속았", .star, litTok "같아"],
   [litTok "의심", .star, litTok "스러운", .star, litTok "전화"],
   [litTok "링크", .star, litTok "클릭", .star, litTok "했"],
   [litTok "앱", .star, litTok "설치", .star, litTok "했"],
   [litTok "대출", .star, litTok "변경", .dot]]

/-- Tier-3 keyword weights (all matches summed). -/
def simpleKeywords : List (String × Nat) :=
  [("급해", 4), ("빨리", 4), ("도와", 3),
   ("송금", 2), ("이체", 2), ("보냈", 2),
   ("사기", 2), ("의심", 1), ("이상", 1)]

/-- Tier-4 de-escalating context words (each subtracts 3, floored at 0). -/
def negativeContexts : List String :=
  ["이름", "뭐야", "모르", "아니", "그냥", "궁금", "질문",
   "문의", "알고싶", "설명", "뜻", "의미"]

/-- Tier-5 recency indicators (first match adds its bonus). -/
def timeIndicators : List (List Tok × Nat) :=
  [([litTok "방금"], 3), ([.digits, litTok "분", .star, litTok "전"], 3),
   ([.digits, litTok "시간", .star, litTok "전"], 2), ([litTok "오늘"], 2)]

/-- Bonus of the first matching indicator (`break` after the first hit). -/
def firstMatchScore : List (List Tok × Nat) → String → Nat
  | [], _ => 0
  | (p, sc) :: t, s => if reSearchS p s then sc else firstMatchScore t s

/-- Final clamp `min(max(score, 1), 10)` of `_assess_urgency_smart`. -/
def clamp110 (n : Nat) : Nat := min (max n 1) 10

/-- `StructuredVoicePhishingGraph._assess_urgency_smart`.  Python `max(0, x-k)`
coincides with truncated `Nat` subtraction. -/
def assessUrgencySmart (userInput : String) : Nat :=
  let userLower := pyStrip (pyLower userInput)
  let s1 : Nat := if highUrgencyPatterns.any (fun p => reSearchS p userInput) then 8 else 0
  let s2 : Nat := s1 + (if mediumUrgencyPatterns.any (fun p => reSearchS p userInput) then 5 else 0)
  let s3 : Nat := simpleKeywords.foldl
    (fun acc kv => if containsS kv.1 userLower then acc + kv.2 else acc) s2
  let s4 : Nat := negativeContexts.foldl
    (fun acc w => if containsS w userLower then acc - 3 else acc) s3
  let s5 : Nat := s4 + firstMatchScore timeIndicators userInput
  let s6 : Nat := if userInput.length ≤ 5 then s5 - 2 else s5
  let s7 : Nat := if containsS "?" userInput || containsS "궁금" userInput then s6 - 2 else s6
  clamp110 s7

/-! ## Conversation state (`VictimRecoveryState` as used by `graph.py`)

The Python state is a dict; keys that `create_initial_recovery_state` does
not set are modelled as `Option`-valued fields initialised to `none` (every
read in the source goes through `.get` with a default) or, where every read
uses the same default and no code distinguishes an absent key from that
default, as a plain field initialised to the default.  Message timestamps
are elided. -/

/-- One entry of the `messages` list (role and content). -/
structure Msg where
  role : String
  content : String
deriving DecidableEq, Repr

/-- The conversation state fields used by `StructuredVoicePhishingGraph`. -/
structure SState where
  session_id : String
  messages : List Msg
  current_step : Option String
  greeting_done : Bool
  current_question_index : Nat
  info_collection_complete : Bool
  victim : Option String
  loss_amount : Option String
  time_context : Option String
  account_frozen : Option String
  reported_to_police : Option String
  urgency_level : Nat
  is_emergency : Bool
  conversation_turns : Nat
deriving Repr

/-- `create_initial_recovery_state` (state.py, lines 84-148), restricted to
the fields read by the structured graph: `urgency_level=5`,
`conversation_turns=0`, empty messages, every other key absent. -/
def createInitialState (sid : String) : SState :=
  { session_id := sid, messages := [], current_step := none,
    greeting_done := false, current_question_index := 0,
    info_collection_complete := false,
    victim := none, loss_amount := none, time_context := none,
    account_frozen := none, reported_to_police := none,
    urgency_level := 5, is_emergency := false, conversation_turns := 0 }

/-- `state["messages"].append({role, content, timestamp})`. -/
def appendMsg (s : SState) (role content : String) : SState :=
  { s with messages := s.messages ++ [⟨role, content⟩] }

/-- Helper of `_get_last_user_message`: scan the reversed message list for
the first user-role entry and return its stripped content. -/
def lastUserAux : List Msg → String
  | [] => ""
  | m :: rest => if m.role = "user" then pyStrip m.content else lastUserAux rest

/-- `StructuredVoicePhishingGraph._get_last_user_message`. -/
def getLastUserMessage (s : SState) : String := lastUserAux s.messages.reverse

/-! ### Fixed message texts of `graph.py` (values of the Python literals) -/

def greetingMessage : String :=
  "안녕하세요! 보이스피싱 에프터케어 센터입니다.\n신속한 도움을 위해 몇 가지 질문을 드리겠습니다. 힘드시겠지만, 답변 부탁드립니다."

def assessStartResponse : String :=
  "같이 하나씩 해결해보아요. 어디서부터 시작해볼까요?"

def assessHighResponse : String :=
  "🚨 긴급 상황으로 판단됩니다! \n                \n        즉시 도움이 필요하시군요. 빠른 조치를 위해 몇 가지 정보가 필요합니다."

def assessMed1Response : String :=
  "상황이 심각해 보입니다. \n                \n        자세한 내용을 듣고 적절한 도움을 드리겠습니다."

def assessMed2Response : String :=
  "말씀하신 내용을 보니 걱정되는 상황이시네요.\n                \n        어떤 일이 있었는지 차근차근 말씀해 주시겠어요?"

def assessLowResponse : String :=
  "보이스피싱 상담센터입니다.\n                \n        어떤 상황인지 자세히 말씀해 주시면 도움을 드리겠습니다."

def collectDoneResponse : String :=
  "정보 수집이 완료되었습니다. 상황을 분석하겠습니다."

def highGuidanceBase : String :=
  "🚨 즉시 실행하세요 (추가 피해 방지가 우선):\n\n1️⃣ **명의도용 확인 & 차단** (가장 중요!)\n   • mSAFER (www.msafer.or.kr) 또는 PASS앱에서\n   • 내 명의로 개통된 모든 휴대폰 확인\n   • 명의도용 발견시 즉시 해지 + 신규개통 차단\n\n2️⃣ **계좌 명의도용 확인**\n   • payinfo.or.kr (금융결제원)에서 확인\n   • 내가 모르는 계좌 있으면 \x27내계좌 일괄지급정지\x27\n\n3️⃣ **확실한 지원 받기**\n   • 보이스피싱제로 (voicephisingzero.co.kr)\n     → 생활비 최대 300만원 (중위소득 100% 이하)\n     → 무료 법률상담 + 소송지원\n   • 대한법률구조공단 132번 무료 상담\n\n4️⃣ **개인정보 보호**\n   • pd.fss.or.kr에서 개인정보노출자 등록\n   • 신규 계좌개설/카드발급 제한"

def highGuidanceFrozen : String :=
  "\n\n⚠️ 지급정지 미신청시: 112나 해당 은행 고객센터로 즉시 신청"

def highGuidanceAmount : String :=
  "\n\n💰 피해금액이 큰 경우: 보이스피싱제로 지원이 3일 환급보다 확실할 수 있습니다"

def highGuidanceTail : String :=
  "\n\n🎯 **핵심**: 3일 환급 성공률은 30-40%이지만, \n보이스피싱제로 생활비 지원은 조건만 맞으면 확실한 300만원입니다!"

def mediumGuidanceText : String :=
  "📞 **먼저 전문가 상담 받으세요:**\n\n1️⃣ **무료 법률상담** (개인 맞춤 전략 수립)\n   • 대한법률구조공단 132번 (무료)\n   • 온라인: www.klac.or.kr 사이버상담\n   • 상황별 최적 대응법 안내\n\n2️⃣ **지원 가능성 확인**\n   • 보이스피싱제로 (1811-0041)\n     → 중위소득 100% 이하면 생활비 300만원\n     → 심리상담비 200만원, 법률비용 지원\n   • 최근 3년 내 피해면 신청 가능\n\n3️⃣ **예방 조치**\n   • mSAFER 명의도용 방지 서비스 등록\n   • 가족들도 함께 등록 권장\n\n4️⃣ **정보 수집**\n   • payinfo.or.kr에서 계좌 현황 확인\n   • 의심스러운 개설 계좌 없는지 점검\n\n💡 **상담 결과에 따라** 3일 환급 vs 생활비 지원 vs 소송 중 \n최적 방법을 선택하세요."

def lowGuidanceText : String :=
  "🛡️ **예방과 정보 수집 중심:**\n\n1️⃣ **무료 상담으로 정확한 판단**\n   • 대한법률구조공단 132번\n   • 실제 피해인지, 대응법은 무엇인지 확인\n\n2️⃣ **명의도용 방지 설정** (매우 중요)\n   • mSAFER (www.msafer.or.kr) 가입\n   • 휴대폰, 인터넷 등 신규 개통 시 SMS 알림\n   • 가족 전체 설정 권장\n\n3️⃣ **지원 조건 미리 확인**\n   • 보이스피싱제로 지원 대상인지 확인\n   • 중위소득 100% 이하면 향후 지원 가능\n\n4️⃣ **장기적 보안 강화**\n   • 모든 금융앱 비밀번호 변경\n   • 이상한 링크/앱 설치 주의\n   • pd.fss.or.kr 개인정보노출 등록 고려\n\n📚 **정보 수집**: 실제 피해 규모와 회복 가능성을 \n전문가 상담으로 정확히 파악하는 것이 우선입니다."

def completePrefix : String :=
  "상담이 완료되었습니다.\n\n📋 수집된 정보 요약:\n"

def completeHighMsg : String :=
  "\n\n🚨 **우선순위 행동사항:**\n1. mSAFER (www.msafer.or.kr)에서 명의도용 차단\n2. 보이스피싱제로 (voicephisingzero.co.kr) 생활비 지원 신청\n3. 대한법률구조공단 132번 무료 상담\n\n⚠️ 기억하세요: 3일 환급보다 300만원 생활비 지원이 더 확실합니다!\n\n24시간 내 위 조치들을 완료하시고, 추가 문의사항이 있으시면 언제든 연락주세요."

def completeMedMsg : String :=
  "\n\n📞 **다음 단계:**\n1. 대한법률구조공단 132번으로 무료 전문상담\n2. 상담 결과에 따라 최적 대응 방법 선택\n3. mSAFER 명의도용 방지 서비스 등록\n\n💡 전문가 상담을 통해 개인 상황에 맞는 최적의 해결책을 찾으시기 바랍니다."

def completeLowMsg : String :=
  "\n\n🛡️ **예방 중심 조치:**\n1. mSAFER (www.msafer.or.kr) 명의도용 방지 서비스 등록\n2. 대한법률구조공단 132번으로 정확한 상황 확인\n3. 보이스피싱제로 지원 조건 미리 확인\n\n정확한 피해 여부와 대응법은 전문가 상담을 통해 확인하시기 바랍니다."

def emptyInputReply : String := "죄송합니다. 다시 말씀해 주세요."

def terminalReply : String := "추가로 궁금한 점이 있으시면 말씀해 주세요."

/-! ### Graph nodes -/

/-- `_greeting_node` (graph.py, lines 119-141). -/
def greetingNode (s : SState) : SState :=
  if s.greeting_done then s
  else
    { appendMsg s "assistant" greetingMessage with
      current_step := some "greeting_complete",
      greeting_done := true,
      current_question_index := 0 }

/-- `_initial_assessment_node` (graph.py, lines 223-277). -/
def initialAssessmentNode (s : SState) : SState :=
  let lastMessage := getLastUserMessage s
  let urgency : Nat := if lastMessage = "" then 5 else assessUrgencySmart lastMessage
  let s := { s with urgency_level := urgency }
  let s :=
    if lastMessage = "" then appendMsg s "assistant" assessStartResponse
    else if 8 ≤ urgency then
      appendMsg { s with is_emergency := true } "assistant" assessHighResponse
    else if 6 ≤ urgency then
      appendMsg { s with is_emergency := false } "assistant" assessMed1Response
    else if 4 ≤ urgency then
      appendMsg { s with is_emergency := false } "assistant" assessMed2Response
    else
      appendMsg { s with is_emergency := false } "assistant" assessLowResponse
  { s with current_step := some "assessment_complete" }

/-- One entry of `self.question_flow`. -/
structure SlotQ where
  field : String
  question : String
  qtype : AType

/-- The structured question order (graph.py, lines 29-60). -/
def questionFlow : List SlotQ :=
  [⟨"victim", "피해자가 본인일까요? \x27네\x27 혹은 \x27아니요\x27로 대답해주세요.", .yes_no⟩,
   ⟨"loss_amount", "송금한 돈이 얼마인가요? 정확한 금액을 말씀해 주세요.", .amount⟩,
   ⟨"time_context", "언제 송금하셨나요? 생각나는 송금시간을 말씀해주세요.", .time⟩,
   ⟨"account_frozen", "계좌 지급정지 신청을 하셨나요? \x27네\x27 혹은 \x27아니요\x27로 답해주세요.", .yes_no⟩,
   ⟨"reported_to_police", "경찰서에 신고하셨나요? \x27네\x27 혹은 \x27아니요\x27로 답해주세요.", .yes_no⟩]

/-- `question_flow[i]`.  Out-of-range indexing raises in the source (the
exception is caught by the turn handler); it never occurs for the cursor
values reachable here, so a dummy entry stands in for the raise. -/
def qAt (i : Nat) : SlotQ := (questionFlow.get? i).getD ⟨"", "", .other⟩

/-- `state[field] = value` for the five slot fields. -/
def setSlot (s : SState) (f v : String) : SState :=
  if f = "victim" then { s with victim := some v }
  else if f = "loss_amount" then { s with loss_amount := some v }
  else if f = "time_context" then { s with time_context := some v }
  else if f = "account_frozen" then { s with account_frozen := some v }
  else if f = "reported_to_police" then { s with reported_to_police := some v }
  else s

/-- `field_names.get(field, field)` of `_generate_confirmation`. -/
def fieldNameKo (f : String) : String :=
  if f = "victim" then "피해자"
  else if f = "loss_amount" then "송금 금액"
  else if f = "time_context" then "송금 시기"
  else if f = "account_frozen" then "계좌 지급정지"
  else if f = "reported_to_police" then "경찰 신고"
  else f

/-- `_generate_confirmation` (graph.py, lines 616-628). -/
def generateConfirmation (f v : String) : String :=
  "✅ " ++ fieldNameKo f ++ ": " ++ v

/-- `_collect_info_node` (graph.py, lines 279-326). -/
def collectInfoNode (s : SState) : SState :=
  let ci := s.current_question_index
  let parsedStep :=
    if 0 < ci then
      let prevQ := qAt (ci - 1)
      let parsed := parseAnswer (getLastUserMessage s) prevQ.qtype
      (setSlot s prevQ.field parsed, generateConfirmation prevQ.field parsed)
    else (s, "")
  let s' := parsedStep.1
  let confirmation := parsedStep.2
  let s'' :=
    if ci < questionFlow.length then
      let q := qAt ci
      let response := if 0 < ci then confirmation ++ "\n\n" ++ q.question else q.question
      appendMsg { s' with current_question_index := ci + 1 } "assistant" response
    else
      appendMsg { s' with info_collection_complete := true } "assistant" collectDoneResponse
  { s'' with current_step := some "collecting_info" }

/-- Python truthiness of an optional string field (absent and `""` are
falsy; every parsed slot value is a non-empty string, hence truthy). -/
def optTruthy : Option String → Bool
  | none => false
  | some v => v ≠ ""

/-- `_generate_high_urgency_guidance` (graph.py, lines 358-395). -/
def generateHighUrgencyGuidance (s : SState) : String :=
  let r := highGuidanceBase
  let r := if !optTruthy s.account_frozen then r ++ highGuidanceFrozen else r
  let r :=
    if optTruthy s.loss_amount && containsS "만원" (s.loss_amount.getD "") then
      r ++ highGuidanceAmount
    else r
  r ++ highGuidanceTail

/-- `_emergency_action_node` (graph.py, lines 328-356). -/
def emergencyActionNode (s : SState) : SState :=
  let response :=
    if 8 ≤ s.urgency_level then generateHighUrgencyGuidance s
    else if 6 ≤ s.urgency_level then mediumGuidanceText
    else lowGuidanceText
  { appendMsg s "assistant" response with current_step := some "emergency_complete" }

/-- One line of `_generate_summary`: emit the bullet iff the field value
(defaulting to `"미확인"`) differs from `"미확인"`. -/
def summaryLine (label : String) (v : Option String) : List String :=
  let x := v.getD "미확인"
  if x ≠ "미확인" then ["• " ++ label ++ ": " ++ x] else []

/-- `_generate_summary` (graph.py, lines 630-655). -/
def generateSummary (s : SState) : String :=
  let parts :=
    summaryLine "피해자" s.victim ++ summaryLine "손실 금액" s.loss_amount ++
    summaryLine "발생 시기" s.time_context ++ summaryLine "지급정지 신청" s.account_frozen ++
    summaryLine "경찰 신고" s.reported_to_police
  if parts.isEmpty then "• 정보 수집 미완료" else String.intercalate "\n" parts

/-- `_complete_node` (graph.py, lines 454-514). -/
def completeNode (s : SState) : SState :=
  let summary := generateSummary s
  let msg :=
    if 8 ≤ s.urgency_level then completePrefix ++ summary ++ completeHighMsg
    else if 6 ≤ s.urgency_level then completePrefix ++ summary ++ completeMedMsg
    else completePrefix ++ summary ++ completeLowMsg
  { appendMsg s "assistant" msg with current_step := some "consultation_complete" }

/-- `_route_after_collect` (graph.py, lines 528-544).  Returns the chosen
edge label together with the (mutated) state: the routing function sets
`info_collection_complete` when all questions are done. -/
def routeAfterCollect (s : SState) : String × SState :=
  if s.current_question_index < questionFlow.length then ("collect_info", s)
  else
    let s := { s with info_collection_complete := true }
    if s.is_emergency || 7 ≤ s.urgency_level then ("emergency_action", s)
    else ("complete", s)

/-- `start_conversation` (graph.py, lines 670-700): runs the greeting and
initial-assessment nodes once on a fresh state. -/
def startConversation (sid : String) : SState :=
  initialAssessmentNode (greetingNode (createInitialState sid))

/-- `continue_conversation` (graph.py, lines 702-771): one user turn of the
structured graph.  The `except` branch of the source is unreachable in the
model (no modelled operation raises for the states considered). -/
def continueConversation (s : SState) (userInput : String) : SState :=
  if pyStrip userInput = "" then appendMsg s "assistant" emptyInputReply
  else
    let s := appendMsg s "user" userInput
    let s := { s with conversation_turns := s.conversation_turns + 1 }
    let step := s.current_step.getD "greeting_complete"
    if step = "greeting_complete" ∨ step = "assessment_complete" then
      collectInfoNode s
    else if step = "collecting_info" then
      let s := collectInfoNode s
      if s.info_collection_complete then
        if 7 ≤ s.urgency_level then emergencyActionNode s else completeNode s
      else s
    else
      appendMsg s "assistant" terminalReply

/-! ## Hybrid decision engine (`hybrid_decision.py`)

The 0.0–1.0 float scores are modelled exactly in tenths over `ℕ`
(0.1 ↦ 1, the cap `min(score, 1.0)` ↦ `min score 10`, threshold 0.7 ↦ 7).
The `reasons` entries are modelled as (label, score) pairs; the source
formats them as `f"<label> (점수: …)"`. -/

/-- Contradiction markers of `_detect_context_mismatch`. -/
def contradictionWords : List String := ["말고", "아니라", "다른", "또 다른", "추가로"]

/-- Yes/no tokens checked by the unanswered-question rule. -/
def yesNoTokens : List String := ["네", "예", "아니", "싫어"]

/-- `_detect_context_mismatch` (hybrid_decision.py, lines 105-128); a
`None`/empty `last_ai_response` is the empty string. -/
def detectContextMismatch (userInput lastAiResponse : String) : Nat :=
  if lastAiResponse = "" then 0
  else
    let userLower := pyLower userInput
    let score : Nat := contradictionWords.foldl
      (fun acc w => if containsS w userLower then acc + 3 else acc) 0
    let score :=
      if containsS "예방" lastAiResponse && containsS "예방" userInput &&
          containsS "말고" userInput then score + 5 else score
    let score :=
      if containsS "?" lastAiResponse &&
          !(yesNoTokens.any fun w => containsS w userLower) then score + 2 else score
    min score 10

/-- Interrogative patterns of `_detect_explanation_request`. -/
def questionPatterns : List String :=
  ["뭐예요", "무엇", "어떤", "설명", "의미", "뜻",
   "어디예요", "누구", "언제", "왜", "어떻게",
   "뭘", "뭔", "무슨", "어느",
   "해야", "하면", "방법", "어디서"]

/-- `_detect_explanation_request` (hybrid_decision.py, lines 130-168). -/
def detectExplanationRequest (userInput : String) : Nat :=
  let userLower := pyLower userInput
  let score : Nat := questionPatterns.foldl
    (fun acc p => if containsS p userLower then acc + 4 else acc) 0
  let score :=
    if containsS "무엇" userInput && containsS "해야" userInput then score + 5 else score
  let score :=
    if containsS "해야" userInput &&
        (["뭘", "어떻게", "무엇"].any fun w => containsS w userLower) then score + 5 else score
  let score :=
    if (["132", "1811"].any fun n => containsS n userInput) &&
        containsS "어디" userLower then score + 6 else score
  let score :=
    if containsS "설정" userInput &&
        (["뭐", "뭘", "무엇"].any fun w => containsS w userLower) then score + 5 else score
  let score :=
    if containsS "말하는" userInput &&
        (["뭘", "무엇", "어떤"].any fun w => containsS w userLower) then score + 6 else score
  min score 10

/-- Mild dissatisfaction markers. -/
def dissatisfactionWords : List String :=
  ["아니", "다시", "다른", "더", "또", "별로", "부족", "그런", "정말", "진짜", "제대로"]

/-- Strong dissatisfaction phrases. -/
def strongDissatisfaction : List String :=
  ["아니 그런", "정말 도움", "진짜 도움", "제대로 도움"]

/-- Confusion phrases. -/
def confusionPhrases : List String := ["이해 안", "모르겠", "헷갈", "잘 모르"]

/-- `_detect_dissatisfaction` (hybrid_decision.py, lines 170-205). -/
def detectDissatisfaction (userInput : String) (history : List Msg) : Nat :=
  let userLower := pyLower userInput
  let score : Nat := dissatisfactionWords.foldl
    (fun acc w => if containsS w userLower then acc + 2 else acc) 0
  let score := strongDissatisfaction.foldl
    (fun acc p => if containsS p userLower then acc + 4 else acc) score
  let score := confusionPhrases.foldl
    (fun acc p => if containsS p userLower then acc + 4 else acc) score
  let score :=
    if 2 ≤ history.length then
      let recentTopics := (history.drop (history.length - 2)).map (·.content)
      if (recentTopics.any fun t => containsS "132" t) && containsS "132" userInput then
        score + 3
      else score
    else score
  min score 10

/-- Python `str.split()`: split on whitespace runs, dropping empties. -/
def wordsAux : List Char → List Char → List (List Char)
  | [], acc => if acc.isEmpty then [] else [acc.reverse]
  | c :: t, acc =>
      if wsp c then
        if acc.isEmpty then wordsAux t [] else acc.reverse :: wordsAux t []
      else wordsAux t (c :: acc)

/-- Python `s.split()`. -/
def splitWs (s : String) : List String := (wordsAux s.toList []).map fun l => ⟨l⟩

/-- `len(set(a) & set(b))`: number of distinct tokens common to both. -/
def commonCount (a b : List String) : Nat :=
  (a.dedup.filter fun t => b.contains t).length

/-- `_detect_repetition` (hybrid_decision.py, lines 207-232). -/
def detectRepetition (userInput : String) (history : List Msg) : Nat :=
  if history.length < 2 then 0
  else
    let userLower := pyLower userInput
    let recentUser := ((history.drop (history.length - 3)).filter
      fun m => m.role = "user").map fun m => pyLower m.content
    let score : Nat := recentUser.foldl
      (fun acc r =>
        if 2 ≤ commonCount (splitWs userLower) (splitWs r) then acc + 3 else acc) 0
    min score 10

/-- Multi-clause connectives of `_detect_complexity`. -/
def complexityWords : List String :=
  ["그런데", "하지만", "그리고", "또한", "게다가", "복잡", "여러", "동시에"]

/-- `_detect_complexity` (hybrid_decision.py, lines 234-254). -/
def detectComplexity (userInput : String) : Nat :=
  let userLower := pyLower userInput
  let score : Nat := if 50 < userInput.length then 2 else 0
  let score := complexityWords.foldl
    (fun acc w => if containsS w userLower then acc + 3 else acc) score
  let score :=
    if containsS "그리고" userLower && (containsS "?" userInput || containsS "까요" userInput) then
      score + 4
    else score
  min score 10

/-- `_suggest_rule_fallback` (hybrid_decision.py, lines 256-273). -/
def suggestRuleFallback (userInput : String) : String :=
  let userLower := pyLower userInput
  if ["돈", "송금", "급해", "사기"].any (fun w => containsS w userLower) then "emergency_response"
  else if ["도와", "도움", "알려"].any (fun w => containsS w userLower) then "help_guidance"
  else if ["132", "1811", "번호", "연락"].any (fun w => containsS w userLower) then "contact_info"
  else "general_guidance"

/-- The decision dict returned by `should_use_gemini`. -/
structure Decision where
  use_gemini : Bool
  confidence : Nat
  reasons : List (String × Nat)
  fallback_rule : Option String

/-- `HybridDecisionEngine.should_use_gemini` (hybrid_decision.py, lines
54-103).  A reason entry is appended exactly when the detector's score
exceeds its per-detector threshold (0.7 / 0.3 / 0.3 / 0.4 / 0.5, i.e.
7 / 3 / 3 / 4 / 5 in tenths). -/
def shouldUseGemini (userInput : String) (history : List Msg)
    (lastAiResponse : String) : Decision :=
  let c := detectContextMismatch userInput lastAiResponse
  let e := detectExplanationRequest userInput
  let d := detectDissatisfaction userInput history
  let r := detectRepetition userInput history
  let x := detectComplexity userInput
  let useG : Bool := decide (7 < c) || decide (3 < e) ||
    decide (3 < d) || decide (4 < r) || decide (5 < x)
  { use_gemini := useG
    confidence := max c (max e (max d (max r x)))
    reasons :=
      (if 7 < c then [("컨텍스트 불일치", c)] else []) ++
      (if 3 < e then [("설명 요청 감지", e)] else []) ++
      (if 3 < d then [("사용자 불만족", d)] else []) ++
      (if 4 < r then [("반복 질문", r)] else []) ++
      (if 5 < x then [("복잡한 상황", x)] else [])
    fallback_rule := if useG then none else some (suggestRuleFallback userInput) }

/-! ## LLM collaborator pipeline (`gemini_assistant.py`,
`hybrid_graph_system.py`) -/

/-- `settings.AI_RESPONSE_MAX_LENGTH` (settings.py line 47, default 80). -/
def AI_RESPONSE_MAX_LENGTH : Nat := 80

/-- A collaborator reply dict: `response`, optional `urgency_level`, and
the optional `extracted_info` entries (`amount`, `time`, `actions_taken`;
an absent `extracted_info` is all-`none`). -/
structure Reply where
  response : String
  urgency_level : Option Int
  amount : Option String
  time : Option String
  actions_taken : Option String
deriving DecidableEq, Repr

def msaferPrependText : String :=
  "🚨 즉시: mSAFER (www.msafer.or.kr)에서 명의도용 차단하세요.\n\n"

def zeroAppendText : String :=
  "\n\n💰 확실한 지원: 보이스피싱제로 (voicephisingzero.co.kr)에서 300만원 생활비 지원"

def prepend132Text : String :=
  "📞 먼저: 대한법률구조공단 132번 무료 상담받으세요.\n\n"

def threeDayNoteText : String :=
  "\n\n🎯 참고: 3일 환급 성공률은 30-40%입니다. 보이스피싱제로 지원이 더 확실할 수 있어요."

/-- `GeminiAssistant._enhance_practical_guidance` (gemini_assistant.py,
lines 187-213): urgency-dependent practical additions, then the length cap
`response[:MAX-3] + "..."` when the text exceeds `AI_RESPONSE_MAX_LENGTH`. -/
def enhancePracticalGuidance (r : Reply) : Reply :=
  let urgency := r.urgency_level.getD 5
  let resp := r.response
  let resp :=
    if 8 ≤ urgency then
      let resp :=
        if !containsS "msafer" (pyLower resp) then msaferPrependText ++ resp else resp
      if !containsS "보이스피싱제로" resp then resp ++ zeroAppendText else resp
    else if 6 ≤ urgency then
      if !containsS "132" resp then prepend132Text ++ resp else resp
    else resp
  let resp :=
    if 7 ≤ urgency && containsS "3일" resp then resp ++ threeDayNoteText else resp
  let resp :=
    if AI_RESPONSE_MAX_LENGTH < resp.length then
      pySlice resp (AI_RESPONSE_MAX_LENGTH - 3) ++ "..."
    else resp
  { r with response := resp }

def rbHighText : String :=
  "🚨 즉시 실행하세요:\n\n1️⃣ mSAFER (www.msafer.or.kr)에서 명의도용 차단\n2️⃣ 보이스피싱제로 (voicephisingzero.co.kr)에서 300만원 생활비 지원 신청\n3️⃣ payinfo.or.kr에서 계좌 명의도용 확인\n\n💡 3일 환급보다 300만원 지원이 더 확실합니다!"

def rbMedText : String :=
  "📞 전문가 상담 우선:\n\n1️⃣ 대한법률구조공단 132번 무료 상담\n2️⃣ 보이스피싱제로 지원 조건 확인\n3️⃣ mSAFER 명의도용 방지 설정\n\n개인 상황에 맞는 최적 전략을 수립하세요."

def rbLowText : String :=
  "🛡️ 예방 중심 조치:\n\n1️⃣ mSAFER (www.msafer.or.kr) 명의도용 방지 서비스 등록\n2️⃣ 132번으로 정확한 상황 확인\n3️⃣ 실제 피해인지 전문가와 확인\n\n예방이 가장 중요합니다."

/-- `GeminiAssistant._practical_rule_based_fallback` (gemini_assistant.py,
lines 215-263): used when the assistant is disabled. -/
def practicalRuleBasedFallback (userInput : String) : Reply :=
  let userLower := pyLower userInput
  let urgency : Int :=
    (["돈", "송금", "보냈", "이체", "급해", "도와", "사기", "억", "만원"].foldl
      (fun acc w => if containsS w userLower then acc + 2 else acc) 3)
  let urgency := min urgency 10
  let resp := if 8 ≤ urgency then rbHighText else if 6 ≤ urgency then rbMedText else rbLowText
  { response := resp, urgency_level := some urgency,
    amount := none, time := none, actions_taken := none }

def emergencyFallbackText : String :=
  "시스템 오류가 발생했습니다.\n\n🚨 긴급한 경우:\n1️⃣ mSAFER (www.msafer.or.kr)에서 명의도용 차단\n2️⃣ 대한법률구조공단 132번 무료 상담\n3️⃣ 보이스피싱제로 (voicephisingzero.co.kr) 지원 확인\n\n이 3가지만 기억하세요!"

/-- `GeminiAssistant._practical_emergency_fallback` (gemini_assistant.py,
lines 265-280): the fixed reply returned when the API call raises. -/
def practicalEmergencyFallback : Reply :=
  { response := emergencyFallbackText, urgency_level := some 8,
    amount := none, time := none, actions_taken := none }

/-- `GeminiAssistant._parse_raw_response` (gemini_assistant.py, lines
298-313): reply built from the raw LLM text when its JSON parse fails. -/
def parseRawResponse (raw : String) : Reply :=
  let rawLower := pyLower raw
  let urgency : Int :=
    if ["긴급", "즉시", "빨리", "msafer", "보이스피싱제로"].any
        (fun w => containsS w rawLower) then 8
    else if ["상담", "132", "확인"].any (fun w => containsS w rawLower) then 6
    else 5
  { response := if 200 < raw.length then pySlice raw 200 ++ "..." else raw,
    urgency_level := some urgency,
    amount := none, time := none, actions_taken := none }

/-- Outcome of the body of `analyze_and_respond`: the API call raised
(timeout, network error, …), or the model returned text that is not valid
JSON, or a parsed JSON reply. -/
inductive ApiOutcome
  | exn
  | malformed (raw : String)
  | ok (r : Reply)

/-- `GeminiAssistant.analyze_and_respond` (gemini_assistant.py, lines
112-139): disabled → rule-based fallback; API exception → fixed emergency
fallback; JSON failure → `_parse_raw_response` then enhancement; parsed
reply → enhancement. -/
def analyzeAndRespond (enabled : Bool) (userInput : String) (o : ApiOutcome) : Reply :=
  if !enabled then practicalRuleBasedFallback userInput
  else
    match o with
    | .exn => practicalEmergencyFallback
    | .malformed raw => enhancePracticalGuidance (parseRawResponse raw)
    | .ok r => enhancePracticalGuidance r

/-- Outcome of the awaited collaborator call inside
`HybridVoicePhishingGraph._process_with_gemini`: either the call itself
raised (reaching the `except` branch), or `analyze_and_respond` ran with
the given API outcome. -/
inductive LLMOutcome
  | callRaised
  | returned (o : ApiOutcome)

def criticalEmergencyText : String :=
  "🚨 매우 긴급한 상황으로 보입니다!\n\n**지금 즉시 해야 할 것:**\n1️⃣ 112(경찰) 또는 1332(금감원)에 신고\n2️⃣ 송금한 은행 고객센터에 지급정지 신청  \n3️⃣ 휴대폰 비행기모드 전환\n\n⚠️ **중요**: 3일 이내 경찰서에서 사건사고사실확인원 발급받아 은행 제출 필수!\n\n어떤 조치부터 하고 계신가요?"

def emergencyRespText : String :=
  "상황이 심각해 보입니다. 빠르게 도와드리겠습니다.\n\n🚨 **즉시 조치사항:**\n• 112(경찰) 또는 1332(금감원) 신고\n• 송금한 은행에 지급정지 신청\n• 휴대폰 보안 설정\n\n지금까지 어떤 조치를 취하셨나요?"

def concernRespText : String :=
  "걱정되는 상황이시군요. 자세한 내용을 듣고 도움을 드리겠습니다.\n\n어떤 일이 있었는지 차근차근 말씀해 주시겠어요?\n- 언제 일어난 일인가요?\n- 어떤 피해가 있었나요?\n- 지금까지 취한 조치가 있나요?"

def standardRespText : String :=
  "보이스피싱 상담센터입니다. \n\n어떤 상황인지 말씀해 주시면 적절한 도움을 드리겠습니다. \n혹시 의심스러운 연락을 받으셨거나 피해가 있으셨나요?"

def amountNoteText : String := "금액 언급됨"

def timeNoteText : String := "시간 정보 있음"

def actionsNoteText : String := "일부 조치 취함"

def contactsAppendText : String := "\n\n🚨 긴급연락처: 112(경찰), 1332(금감원)"

def threeDayRuleText : String :=
  "3일 이내 경찰서에서 사건사고사실확인원을 발급받아 은행에 제출해야 환급 가능합니다"

/-- Urgency accumulation of `_process_with_rules_fallback`, step 1: high
keywords each add 3 starting from 3. -/
def rbUrg1 (ul : String) : Int :=
  ["돈", "송금", "보냈", "이체", "급해", "빨리", "도와", "사기", "속았"].foldl
    (fun acc w => if containsS w ul then acc + 3 else acc) 3

/-- Step 2: medium keywords each add 1. -/
def rbUrg2 (ul : String) : Int :=
  ["앱", "설치", "링크", "의심", "이상"].foldl
    (fun acc w => if containsS w ul then acc + 1 else acc) (rbUrg1 ul)

/-- Step 3: amount units add 4 (large) or 2 (small). -/
def rbUrg3 (ul : String) : Int :=
  if ["억", "천만", "백만"].any (fun w => containsS w ul) then rbUrg2 ul + 4
  else if ["만원", "원"].any (fun w => containsS w ul) then rbUrg2 ul + 2
  else rbUrg2 ul

/-- Step 4: recency phrases add 3. -/
def rbUrg4 (ul : String) : Int :=
  if ["분 전", "시간 전", "방금"].any (fun w => containsS w ul) then rbUrg3 ul + 3
  else rbUrg3 ul

/-- The final `urgency = min(urgency, 10)` of `_process_with_rules_fallback`. -/
def rulesFallbackUrgency (userInput : String) : Int := min (rbUrg4 (pyLower userInput)) 10

/-- `HybridVoicePhishingGraph._process_with_rules_fallback`
(hybrid_graph_system.py, lines 217-277). -/
def processWithRulesFallback (userInput : String) : Reply :=
  let userLower := pyLower userInput
  let urgency := rulesFallbackUrgency userInput
  let resp :=
    if 9 ≤ urgency then criticalEmergencyText
    else if 7 ≤ urgency then emergencyRespText
    else if 5 ≤ urgency then concernRespText
    else standardRespText
  { response := resp, urgency_level := some urgency,
    amount := if ["억", "만원", "원"].any (fun w => containsS w userLower)
              then some amountNoteText else none,
    time := if ["분", "시간", "전", "오늘", "어제"].any (fun w => containsS w userLower)
            then some timeNoteText else none,
    actions_taken := if ["신고", "경찰", "은행"].any (fun w => containsS w userLower)
                     then some actionsNoteText else none }

/-- `HybridVoicePhishingGraph._add_emergency_safety_net`
(hybrid_graph_system.py, lines 323-336): both presence checks read the
response as it was before this function ran. -/
def addEmergencySafetyNet (r : Reply) : Reply :=
  let original := r.response
  let resp :=
    if !containsS "112" original && !containsS "1332" original then
      original ++ contactsAppendText
    else original
  let resp :=
    if !containsS "3일" original then resp ++ "\n\n⚠️ " ++ threeDayRuleText else resp
  { r with response := resp }

/-- `HybridVoicePhishingGraph._process_with_gemini` (hybrid_graph_system.py,
lines 188-216), for an enabled assistant: if the awaited call raised, fall
back to the rules; otherwise take the reply of `analyze_and_respond` and,
when its reported urgency is at least 8, add the emergency safety net. -/
def processWithGemini (userInput : String) (o : LLMOutcome) : Reply :=
  match o with
  | .callRaised => processWithRulesFallback userInput
  | .returned a =>
      let r := analyzeAndRespond true userInput a
      if 8 ≤ r.urgency_level.getD 0 then addEmergencySafetyNet r else r

/-- The conversation state fields used by `HybridVoicePhishingGraph`. -/
structure HState where
  messages : List Msg
  current_step : Option String
  urgency_level : Int
  conversation_turns : Nat
  loss_amount : Option String
  time_context : Option String
  actions_taken : Option String
deriving Repr

/-- `HybridVoicePhishingGraph._get_last_user_message`. -/
def getLastUserMessageH (s : HState) : String := lastUserAux s.messages.reverse

/-- `HybridVoicePhishingGraph._ai_processing_node` (hybrid_graph_system.py,
lines 141-186), in AI mode, given the collaborator call's outcome: append
the reply as the single assistant message of the turn, overwrite
`urgency_level` with the reply's reported value (default 3, no clamp),
advance the step and turn counter, and copy truthy extracted fields. -/
def aiProcessingNode (s : HState) (o : LLMOutcome) : HState :=
  let lastMessage := getLastUserMessageH s
  let rd := processWithGemini lastMessage o
  let s := { s with messages := s.messages ++ [Msg.mk "assistant" rd.response] }
  let s := { s with urgency_level := rd.urgency_level.getD 3,
                    current_step := some "ai_processed",
                    conversation_turns := s.conversation_turns + 1 }
  let s := if optTruthy rd.amount then { s with loss_amount := rd.amount } else s
  let s := if optTruthy rd.time then { s with time_context := rd.time } else s
  if optTruthy rd.actions_taken then { s with actions_taken := rd.actions_taken } else s

/-- The `session_state` dict of `GeminiAssistant`. -/
structure GSession where
  total_turns : Nat
  urgency_level : Int
  practical_guidance_provided : Bool

/-- `GeminiAssistant._update_session_state` (gemini_assistant.py, lines
315-320): the reported urgency is stored without clamping. -/
def updateSessionState (g : GSession) (r : Reply) : GSession :=
  { total_turns := g.total_turns + 1,
    urgency_level := r.urgency_level.getD 3,
    practical_guidance_provided := true }

/-! ## Helper lemmas -/

/-- A list is "clean" for `p` if it has nothing for `dropWhile p` to drop. -/
def Clean (p : Char → Bool) (l : List Char) : Prop := l.dropWhile p = l

lemma clean_nil (p : Char → Bool) : Clean p [] := rfl

lemma clean_cons_iff (p : Char → Bool) (a : Char) (t : List Char) :
    Clean p (a :: t) ↔ p a = false := by
  constructor
  · intro h
    by_contra hpa
    have hpa' : p a = true := by revert hpa; cases p a <;> simp
    have hlen := congrArg List.length h
    have hsub : (t.dropWhile p).length ≤ t.length :=
      (List.dropWhile_sublist (l := t) (p := p)).length_le
    simp [Clean, List.dropWhile, hpa'] at h
    have := congrArg List.length h
    simp at this
    omega
  · intro h
    simp [Clean, List.dropWhile, h]

lemma clean_dropWhile (p : Char → Bool) (l : List Char) : Clean p (l.dropWhile p) := by
  induction l with
  | nil => exact clean_nil p
  | cons a t ih =>
      by_cases h : p a = true
      · simpa [List.dropWhile, h] using ih
      · have h' : p a = false := by revert h; cases p a <;> simp
        simpa [List.dropWhile, h'] using (clean_cons_iff p a t).mpr h'

lemma clean_of_prefix {p : Char → Bool} {l l' : List Char}
    (h : Clean p l) (hp : l' <+: l) : Clean p l' := by
  cases l' with
  | nil => exact clean_nil p
  | cons a t =>
      obtain ⟨r, hr⟩ := hp
      have : l = a :: (t ++ r) := by rw [← hr]; simp
      rw [this] at h
      exact (clean_cons_iff p a t).mpr ((clean_cons_iff p a (t ++ r)).mp h)

/-- `str.strip` is idempotent. -/
lemma trimL_idem (cs : List Char) : trimL (trimL cs) = trimL cs := by
  set u := cs.dropWhile wsp with hu
  have hgood_u : Clean wsp u := clean_dropWhile wsp cs
  set t := (u.reverse.dropWhile wsp).reverse with ht
  have htrim : trimL cs = t := by rw [trimL, ← hu, ← ht]
  have hpre : t <+: u := by
    have h1 : u.reverse.dropWhile wsp <:+ u.reverse := List.dropWhile_suffix wsp
    have h2 := List.reverse_prefix.mpr h1
    rw [List.reverse_reverse] at h2
    rw [ht]
    exact h2
  have hgood_t : Clean wsp t := clean_of_prefix hgood_u hpre
  have hrev : Clean wsp t.reverse := by
    rw [ht, List.reverse_reverse]
    exact clean_dropWhile wsp u.reverse
  rw [htrim, trimL, hgood_t, hrev, List.reverse_reverse]

lemma pyStrip_idem (s : String) : pyStrip (pyStrip s) = pyStrip s := by
  simp [pyStrip, trimL_idem]

lemma pyNorm_pyStrip (s : String) : pyNorm (pyStrip s) = pyNorm s := by
  simp [pyNorm, pyStrip_idem]

/-- `_parse_answer` only depends on the stripped input: parsing the
stripped text gives the same result as parsing the raw text. -/
lemma parseAnswer_pyStrip (raw : String) (t : AType) :
    parseAnswer (pyStrip raw) t = parseAnswer raw t := by
  unfold parseAnswer
  rw [pyNorm_pyStrip]

lemma trimL_all_ws (cs : List Char) (h : ∀ c ∈ cs, wsp c = true) : trimL cs = [] := by
  have h1 : cs.dropWhile wsp = [] := List.dropWhile_eq_nil_iff.mpr h
  simp [trimL, h1]

lemma pyStrip_all_ws (w : String) (h : ∀ c ∈ w.toList, wsp c = true) :
    pyStrip w = "" := by
  have h0 : trimL w.toList = [] := trimL_all_ws _ h
  show String.mk (trimL w.toList) = ""
  rw [h0]

lemma firstRun_eq_none (cs : List Char) (h : ∀ c ∈ cs, isDigitComma c = false) :
    firstRun cs = none := by
  induction cs with
  | nil => rfl
  | cons c t ih =>
      have hc := h c (by simp)
      simp [firstRun, hc]
      exact ih fun x hx => h x (by simp [hx])

/-! ## C8 — amount parsing -/

/-- C8 counterexample: on `", 15억"` the first `[\d,]+` run is the bare
comma, whose integer conversion fails, so `_parse_answer` returns the raw
text although the input does contain digits — contradicting the claim that
the first run of digits (15) is extracted and scaled by 억 to
`"1,500,000,000원"`. -/
theorem c8_counterexample :
    parseAnswer ", 15억" .amount = ", 15억" ∧
    (", 15억".toList.any Char.isDigit = true) ∧
    parseAnswer ", 15억" .amount ≠ "1,500,000,000원" := by decide

/-- C8 (amended): the amount branch extracts the first maximal run of
digit-or-comma characters; the two spec examples hold, and when the
normalised answer has no digit and no comma at all the trimmed
(lower-cased) text is returned. -/
theorem c8_amount_amended :
    parseAnswer "15억" .amount = "1,500,000,000원" ∧
    parseAnswer "300만원" .amount = "3,000,000원" ∧
    ∀ raw : String, (∀ c ∈ (pyNorm raw).toList, isDigitComma c = false) →
      parseAnswer raw .amount = pyStrip (pyNorm raw) := by
  refine ⟨by decide, by decide, ?_⟩
  intro raw h
  simp only [parseAnswer, firstRun_eq_none _ h]

/-- C8 amended witness at concrete inputs. -/
theorem c8_amount_amended_witness :
    parseAnswer "15억" .amount = "1,500,000,000원" ∧
    (∀ c ∈ (pyNorm "몰라요").toList, isDigitComma c = false) ∧
    parseAnswer "몰라요" .amount = pyStrip (pyNorm "몰라요") :=
  ⟨c8_amount_amended.1, by decide, c8_amount_amended.2.2 "몰라요" (by decide)⟩

/-! ## C9 — yes/no parser totality and idempotence -/

/-- C9: the yes/no branch is total (always one of 네 / 아니요 / 미확인) and
idempotent, and being a pure function it is deterministic. -/
theorem c9_yes_no_total_and_idempotent (raw : String) :
    (parseAnswer raw .yes_no = "네" ∨ parseAnswer raw .yes_no = "아니요" ∨
      parseAnswer raw .yes_no = "미확인") ∧
    parseAnswer (parseAnswer raw .yes_no) .yes_no = parseAnswer raw .yes_no := by
  have tot : parseAnswer raw .yes_no = "네" ∨ parseAnswer raw .yes_no = "아니요" ∨
      parseAnswer raw .yes_no = "미확인" := by
    unfold parseAnswer
    by_cases h1 : (yesWords.any fun w => containsS w (pyNorm raw)) = true
    · simp [h1]
    · by_cases h2 : (noWords.any fun w => containsS w (pyNorm raw)) = true
      · simp [h1, h2]
      · simp [h1, h2]
  refine ⟨tot, ?_⟩
  rcases tot with h | h | h <;> rw [h] <;> decide

/-! ## C10 — affirmative words win over negative words -/

/-- C10: the affirmative word set is checked first, so any input containing
an affirmative token parses to 네 even if a negative token is present. -/
theorem c10_affirmative_precedence (raw : String)
    (h : (yesWords.any fun w => containsS w (pyNorm raw)) = true) :
    parseAnswer raw .yes_no = "네" := by
  simp [parseAnswer, h]

/-- C10 witness: `"아니 맞아"` contains both a negative token (아니) and an
affirmative token (맞아) and parses to 네. -/
theorem c10_affirmative_precedence_witness :
    ((yesWords.any fun w => containsS w (pyNorm "아니 맞아")) = true ∧
      (noWords.any fun w => containsS w (pyNorm "아니 맞아")) = true) ∧
    parseAnswer "아니 맞아" .yes_no = "네" :=
  ⟨⟨by decide, by decide⟩, c10_affirmative_precedence "아니 맞아" (by decide)⟩

/-! ## C4 — urgency classifier range and empty-input default -/

lemma clamp110_range (n : Nat) : 1 ≤ clamp110 n ∧ clamp110 n ≤ 10 := by
  unfold clamp110
  omega

@[simp] lemma lastUserAux_cons_user (a : String) (rest : List Msg) :
    lastUserAux (Msg.mk "user" a :: rest) = pyStrip a := rfl

@[simp] lemma lastUserAux_append_user (ms : List Msg) (a : String) :
    lastUserAux (ms ++ [Msg.mk "user" a]).reverse = pyStrip a := by
  rw [List.reverse_append]
  simp only [List.reverse_cons, List.reverse_nil, List.nil_append, List.singleton_append]
  exact lastUserAux_cons_user a ms.reverse

lemma getLastUser_append_user (s : SState) (a : String) :
    getLastUserMessage (appendMsg s "user" a) = pyStrip a :=
  lastUserAux_append_user s.messages a

/-- C4: `_assess_urgency_smart` always returns a value in [1,10], and when
the latest user utterance is empty or whitespace-only the initial
assessment uses the fixed default 5 instead of the classifier. -/
theorem c4_urgency_range_and_default :
    (∀ t : String, 1 ≤ assessUrgencySmart t ∧ assessUrgencySmart t ≤ 10) ∧
    (∀ (s : SState) (w : String), (∀ c ∈ w.toList, wsp c = true) →
      (initialAssessmentNode (appendMsg s "user" w)).urgency_level = 5) := by
  constructor
  · intro t
    exact clamp110_range _
  · intro s w hw
    have hlast : getLastUserMessage (appendMsg s "user" w) = "" := by
      rw [getLastUser_append_user, pyStrip_all_ws w hw]
    simp only [initialAssessmentNode, hlast]
    simp [appendMsg]

/-- C4 witness: the range at a concrete input and the default on a
whitespace-only utterance. -/
theorem c4_urgency_range_and_default_witness :
    (1 ≤ assessUrgencySmart "사기 당했어요" ∧ assessUrgencySmart "사기 당했어요" ≤ 10) ∧
    ((∀ c ∈ ("  " : String).toList, wsp c = true) ∧
      (initialAssessmentNode (appendMsg (createInitialState "w") "user" "  ")).urgency_level = 5) :=
  ⟨c4_urgency_range_and_default.1 "사기 당했어요",
   ⟨by decide, c4_urgency_range_and_default.2 (createInitialState "w") "  " (by decide)⟩⟩

/-! ## C2 — emergency-branch condition after slot-filling -/

@[simp] lemma appendMsg_messages (s : SState) (r c : String) :
    (appendMsg s r c).messages = s.messages ++ [Msg.mk r c] := rfl

@[simp] lemma appendMsg_step (s : SState) (r c : String) :
    (appendMsg s r c).current_step = s.current_step := rfl

@[simp] lemma appendMsg_index (s : SState) (r c : String) :
    (appendMsg s r c).current_question_index = s.current_question_index := rfl

@[simp] lemma appendMsg_complete (s : SState) (r c : String) :
    (appendMsg s r c).info_collection_complete = s.info_collection_complete := rfl

@[simp] lemma appendMsg_urgency (s : SState) (r c : String) :
    (appendMsg s r c).urgency_level = s.urgency_level := rfl

@[simp] lemma appendMsg_emergency (s : SState) (r c : String) :
    (appendMsg s r c).is_emergency = s.is_emergency := rfl

@[simp] lemma appendMsg_turns (s : SState) (r c : String) :
    (appendMsg s r c).conversation_turns = s.conversation_turns := rfl

@[simp] lemma appendMsg_victim (s : SState) (r c : String) :
    (appendMsg s r c).victim = s.victim := rfl

@[simp] lemma appendMsg_loss (s : SState) (r c : String) :
    (appendMsg s r c).loss_amount = s.loss_amount := rfl

@[simp] lemma appendMsg_time (s : SState) (r c : String) :
    (appendMsg s r c).time_context = s.time_context := rfl

@[simp] lemma appendMsg_frozen (s : SState) (r c : String) :
    (appendMsg s r c).account_frozen = s.account_frozen := rfl

@[simp] lemma appendMsg_police (s : SState) (r c : String) :
    (appendMsg s r c).reported_to_police = s.reported_to_police := rfl

/-- `continue_conversation` on a non-empty input in the `collecting_info`
step: unfolded turn shape. -/
lemma cc_collecting (s : SState) (input : String) (hin : pyStrip input ≠ "")
    (hstep : s.current_step = some "collecting_info") :
    continueConversation s input =
      (if (collectInfoNode { appendMsg s "user" input with
            conversation_turns := s.conversation_turns + 1 }).info_collection_complete then
        if 7 ≤ (collectInfoNode { appendMsg s "user" input with
              conversation_turns := s.conversation_turns + 1 }).urgency_level then
          emergencyActionNode (collectInfoNode { appendMsg s "user" input with
            conversation_turns := s.conversation_turns + 1 })
        else
          completeNode (collectInfoNode { appendMsg s "user" input with
            conversation_turns := s.conversation_turns + 1 })
      else collectInfoNode { appendMsg s "user" input with
        conversation_turns := s.conversation_turns + 1 }) := by
  simp only [continueConversation]
  rw [if_neg hin]
  simp [hstep]

/-- `continue_conversation` on a non-empty input right after the initial
assessment: the turn just runs `_collect_info_node`. -/
lemma cc_assessment (s : SState) (input : String) (hin : pyStrip input ≠ "")
    (hstep : s.current_step = some "assessment_complete") :
    continueConversation s input =
      collectInfoNode { appendMsg s "user" input with
        conversation_turns := s.conversation_turns + 1 } := by
  simp only [continueConversation]
  rw [if_neg hin]
  simp [hstep]

@[simp] lemma setSlot_complete (s : SState) (f v : String) :
    (setSlot s f v).info_collection_complete = s.info_collection_complete := by
  unfold setSlot
  split_ifs <;> rfl

@[simp] lemma setSlot_step (s : SState) (f v : String) :
    (setSlot s f v).current_step = s.current_step := by
  unfold setSlot
  split_ifs <;> rfl

@[simp] lemma setSlot_urgency (s : SState) (f v : String) :
    (setSlot s f v).urgency_level = s.urgency_level := by
  unfold setSlot
  split_ifs <;> rfl

@[simp] lemma setSlot_index (s : SState) (f v : String) :
    (setSlot s f v).current_question_index = s.current_question_index := by
  unfold setSlot
  split_ifs <;> rfl

@[simp] lemma setSlot_emergency (s : SState) (f v : String) :
    (setSlot s f v).is_emergency = s.is_emergency := by
  unfold setSlot
  split_ifs <;> rfl

/-- Facts about `_collect_info_node` on a state whose cursor is already 5:
it marks collection complete, keeps the cursor, the step marker and the
urgency. -/
lemma collect_at_5 (s : SState) (h5 : s.current_question_index = 5) :
    (collectInfoNode s).info_collection_complete = true ∧
    (collectInfoNode s).current_step = some "collecting_info" ∧
    (collectInfoNode s).urgency_level = s.urgency_level ∧
    (collectInfoNode s).current_question_index = 5 := by
  simp [collectInfoNode, h5, questionFlow, appendMsg]

/-- The state used in the C2 counterexample: slot-filling finished,
`urgency_level = 7`, `is_emergency = false`. -/
def c2FalseState : SState :=
  { createInitialState "c2" with current_question_index := 5, urgency_level := 7 }

/-- C2 counterexample: with `is_emergency = false` and `urgency_level = 7`
the routing after collection still takes the emergency branch, because the
source condition is `is_emergency or urgency_level >= 7` — the claimed
"if and only if `is_emergency`" is false. -/
theorem c2_counterexample :
    (routeAfterCollect c2FalseState).1 = "emergency_action" ∧
    c2FalseState.is_emergency = false := by decide

/-- C2 (amended): once the five questions are done, `_route_after_collect`
takes the emergency branch iff `is_emergency ∨ urgency_level ≥ 7` (and
otherwise completes), while the inline branch of `continue_conversation`
uses `urgency_level ≥ 7` alone. -/
theorem c2_amended (s : SState) (h5 : s.current_question_index = 5) :
    ((routeAfterCollect s).1 = "emergency_action" ↔
      (s.is_emergency = true ∨ 7 ≤ s.urgency_level)) ∧
    ((routeAfterCollect s).1 ≠ "emergency_action" → (routeAfterCollect s).1 = "complete") ∧
    (∀ input : String, s.current_step = some "collecting_info" → pyStrip input ≠ "" →
      (((continueConversation s input).current_step = some "emergency_complete") ↔
        7 ≤ s.urgency_level) ∧
      (((continueConversation s input).current_step = some "consultation_complete") ↔
        ¬ 7 ≤ s.urgency_level)) := by
  refine ⟨?_, ?_, ?_⟩
  · unfold routeAfterCollect
    rw [h5]
    by_cases he : s.is_emergency <;> by_cases hu : 7 ≤ s.urgency_level <;>
      simp [questionFlow, he, hu]
  · unfold routeAfterCollect
    rw [h5]
    by_cases he : s.is_emergency <;> by_cases hu : 7 ≤ s.urgency_level <;>
      simp [questionFlow, he, hu]
  · intro input hstep hin
    rw [cc_collecting s input hin hstep]
    have hidx1 : ({ appendMsg s "user" input with
        conversation_turns := s.conversation_turns + 1 } : SState).current_question_index = 5 := h5
    obtain ⟨hc1, _, hc3, _⟩ := collect_at_5 _ hidx1
    by_cases hu : 7 ≤ s.urgency_level
    · simp only [hc1, if_true]
      rw [hc3]
      simp [hu, emergencyActionNode]
    · simp only [hc1, if_true]
      rw [hc3]
      simp [hu, completeNode]

/-- C2 amended witness at a concrete completed state. -/
theorem c2_amended_witness :
    ((routeAfterCollect c2FalseState).1 = "emergency_action" ↔
      (c2FalseState.is_emergency = true ∨ 7 ≤ c2FalseState.urgency_level)) ∧
    (continueConversation { c2FalseState with current_step := some "collecting_info" } "네").current_step
      = some "emergency_complete" :=
  ⟨(c2_amended c2FalseState rfl).1,
   (((c2_amended { c2FalseState with current_step := some "collecting_info" } rfl).2.2
      "네" rfl (by decide)).1).mpr (by decide)⟩

/-! ## C3 — five-answer slot-filling loop -/

@[simp] lemma qAt0_field : (qAt 0).field = "victim" := rfl

@[simp] lemma qAt0_type : (qAt 0).qtype = AType.yes_no := rfl

@[simp] lemma qAt1_field : (qAt 1).field = "loss_amount" := rfl

@[simp] lemma qAt1_type : (qAt 1).qtype = AType.amount := rfl

@[simp] lemma qAt2_field : (qAt 2).field = "time_context" := rfl

@[simp] lemma qAt2_type : (qAt 2).qtype = AType.time := rfl

@[simp] lemma qAt3_field : (qAt 3).field = "account_frozen" := rfl

@[simp] lemma qAt3_type : (qAt 3).qtype = AType.yes_no := rfl

@[simp] lemma qAt4_field : (qAt 4).field = "reported_to_police" := rfl

@[simp] lemma qAt4_type : (qAt 4).qtype = AType.yes_no := rfl

@[simp] lemma getLastUser_turnState (s : SState) (a : String) (n : Nat) :
    getLastUserMessage { appendMsg s "user" a with conversation_turns := n } = pyStrip a :=
  lastUserAux_append_user s.messages a

attribute [simp] parseAnswer_pyStrip

/-- `_collect_info_node` at cursor 0: ask the first question, no parsing. -/
lemma collect_at_0 (s : SState) (h0 : s.current_question_index = 0) :
    collectInfoNode s =
      { appendMsg { s with current_question_index := 1 } "assistant" (qAt 0).question
        with current_step := some "collecting_info" } := by
  simp [collectInfoNode, h0, questionFlow]

/-- `_collect_info_node` at a middle cursor `0 < i < 5`: parse and store the
previous answer, confirm, ask question `i`, advance the cursor. -/
lemma collect_at_mid (s : SState) (i : Nat) (h : s.current_question_index = i)
    (hlo : 0 < i) (hhi : i < 5) :
    collectInfoNode s =
      { appendMsg
          { setSlot s (qAt (i - 1)).field (parseAnswer (getLastUserMessage s) (qAt (i - 1)).qtype)
            with current_question_index := i + 1 }
          "assistant"
          (generateConfirmation (qAt (i - 1)).field
              (parseAnswer (getLastUserMessage s) (qAt (i - 1)).qtype)
            ++ "\n\n" ++ (qAt i).question)
        with current_step := some "collecting_info" } := by
  have hq : i < questionFlow.length := by simpa [questionFlow] using hhi
  simp only [collectInfoNode, h, if_pos hlo, if_pos hq]

/-- `_collect_info_node` at cursor 5: parse and store the last answer and
mark collection complete. -/
lemma collect_at_5_eq (s : SState) (h : s.current_question_index = 5) :
    collectInfoNode s =
      { appendMsg
          { setSlot s (qAt 4).field (parseAnswer (getLastUserMessage s) (qAt 4).qtype)
            with info_collection_complete := true }
          "assistant" collectDoneResponse
        with current_step := some "collecting_info" } := by
  have hq : ¬ (5 : Nat) < questionFlow.length := by simp [questionFlow]
  simp only [collectInfoNode, h, if_pos (by omega : (0:Nat) < 5), if_neg hq]

@[simp] lemma emergencyActionNode_index (s : SState) :
    (emergencyActionNode s).current_question_index = s.current_question_index := rfl

@[simp] lemma emergencyActionNode_complete (s : SState) :
    (emergencyActionNode s).info_collection_complete = s.info_collection_complete := rfl

@[simp] lemma emergencyActionNode_victim (s : SState) :
    (emergencyActionNode s).victim = s.victim := rfl

@[simp] lemma emergencyActionNode_loss (s : SState) :
    (emergencyActionNode s).loss_amount = s.loss_amount := rfl

@[simp] lemma emergencyActionNode_time (s : SState) :
    (emergencyActionNode s).time_context = s.time_context := rfl

@[simp] lemma emergencyActionNode_frozen (s : SState) :
    (emergencyActionNode s).account_frozen = s.account_frozen := rfl

@[simp] lemma emergencyActionNode_police (s : SState) :
    (emergencyActionNode s).reported_to_police = s.reported_to_police := rfl

@[simp] lemma completeNode_index (s : SState) :
    (completeNode s).current_question_index = s.current_question_index := rfl

@[simp] lemma completeNode_complete (s : SState) :
    (completeNode s).info_collection_complete = s.info_collection_complete := rfl

@[simp] lemma completeNode_victim (s : SState) :
    (completeNode s).victim = s.victim := rfl

@[simp] lemma completeNode_loss (s : SState) :
    (completeNode s).loss_amount = s.loss_amount := rfl

@[simp] lemma completeNode_time (s : SState) :
    (completeNode s).time_context = s.time_context := rfl

@[simp] lemma completeNode_frozen (s : SState) :
    (completeNode s).account_frozen = s.account_frozen := rfl

@[simp] lemma completeNode_police (s : SState) :
    (completeNode s).reported_to_police = s.reported_to_police := rfl

@[simp] lemma setSlot_victim' (s : SState) (v : String) :
    (setSlot s "victim" v).victim = some v := by simp [setSlot]

/-- C3: starting from cursor 0 right after the initial assessment, one turn
asks the first question and each of the five following user answers is
parsed by `_parse_answer`, stored in its slot field, and advances the
cursor, until `info_collection_complete` is set with the cursor at 5. -/
theorem c3_slot_filling
    (s0 : SState) (x a1 a2 a3 a4 a5 : String)
    (hstep : s0.current_step = some "assessment_complete")
    (hidx : s0.current_question_index = 0)
    (hcomp : s0.info_collection_complete = false)
    (hx : pyStrip x ≠ "") (ha1 : pyStrip a1 ≠ "") (ha2 : pyStrip a2 ≠ "")
    (ha3 : pyStrip a3 ≠ "") (ha4 : pyStrip a4 ≠ "") (ha5 : pyStrip a5 ≠ "")
    (s1 s2 s3 s4 s5 s6 : SState)
    (e1 : s1 = continueConversation s0 x)
    (e2 : s2 = continueConversation s1 a1)
    (e3 : s3 = continueConversation s2 a2)
    (e4 : s4 = continueConversation s3 a3)
    (e5 : s5 = continueConversation s4 a4)
    (e6 : s6 = continueConversation s5 a5) :
    s1.current_question_index = 1 ∧ s2.current_question_index = 2 ∧
    s3.current_question_index = 3 ∧ s4.current_question_index = 4 ∧
    s5.current_question_index = 5 ∧ s5.info_collection_complete = false ∧
    s6.current_question_index = 5 ∧ s6.info_collection_complete = true ∧
    s1.messages.getLast? = some (Msg.mk "assistant" (qAt 0).question) ∧
    s2.messages.getLast? = some (Msg.mk "assistant"
      (generateConfirmation (qAt 0).field (parseAnswer a1 .yes_no) ++ "\n\n" ++
        (qAt 1).question)) ∧
    s6.victim = some (parseAnswer a1 .yes_no) ∧
    s6.loss_amount = some (parseAnswer a2 .amount) ∧
    s6.time_context = some (parseAnswer a3 .time) ∧
    s6.account_frozen = some (parseAnswer a4 .yes_no) ∧
    s6.reported_to_police = some (parseAnswer a5 .yes_no) := by
  -- Turn 1: the first question is asked, cursor 0 → 1.
  rw [cc_assessment s0 x hx hstep, collect_at_0 _ (by simp [hidx])] at e1
  have f1s : s1.current_step = some "collecting_info" := by rw [e1]
  have f1i : s1.current_question_index = 1 := by rw [e1]; simp
  have f1c : s1.info_collection_complete = false := by rw [e1]; simp [hcomp]
  -- Turn 2: answer 1 parsed into `victim`, cursor 1 → 2.
  rw [cc_collecting s1 a1 ha1 f1s,
      collect_at_mid ({ appendMsg s1 "user" a1 with
        conversation_turns := s1.conversation_turns + 1 }) 1 (by simp [f1i])
        (by omega) (by omega)] at e2
  simp only [appendMsg_complete, setSlot_complete, f1c, Bool.false_eq_true, if_false] at e2
  have f2s : s2.current_step = some "collecting_info" := by rw [e2]
  have f2i : s2.current_question_index = 2 := by rw [e2]; simp
  have f2c : s2.info_collection_complete = false := by rw [e2]
  have f2v : s2.victim = some (parseAnswer a1 .yes_no) := by
    rw [e2]; simp [getLastUserMessage]
  have f2l : s2.loss_amount = s1.loss_amount := by rw [e2]; simp [setSlot]
  have f2t : s2.time_context = s1.time_context := by rw [e2]; simp [setSlot]
  have f2f : s2.account_frozen = s1.account_frozen := by rw [e2]; simp [setSlot]
  have f2p : s2.reported_to_police = s1.reported_to_police := by rw [e2]; simp [setSlot]
  have f1m : s1.messages.getLast? = some (Msg.mk "assistant" (qAt 0).question) := by
    rw [e1]; simp [List.getLast?_concat]
  have f2m : s2.messages.getLast? = some (Msg.mk "assistant"
      (generateConfirmation (qAt 0).field (parseAnswer a1 .yes_no) ++ "\n\n" ++
        (qAt 1).question)) := by
    rw [e2]; simp [List.getLast?_concat, getLastUserMessage]
  -- Turn 3: answer 2 parsed, cursor 2 → 3.
  rw [cc_collecting s2 a2 ha2 f2s,
      collect_at_mid ({ appendMsg s2 "user" a2 with
        conversation_turns := s2.conversation_turns + 1 }) 2 (by simp [f2i])
        (by omega) (by omega)] at e3
  simp only [appendMsg_complete, setSlot_complete, f2c, Bool.false_eq_true, if_false] at e3
  have f3s : s3.current_step = some "collecting_info" := by rw [e3]
  have f3i : s3.current_question_index = 3 := by rw [e3]; simp
  have f3c : s3.info_collection_complete = false := by rw [e3]
  have f3v : s3.victim = some (parseAnswer a1 .yes_no) := by rw [e3]; simp [setSlot, f2v]
  have f3l : s3.loss_amount = some (parseAnswer a2 .amount) := by
    rw [e3]; simp [getLastUserMessage, setSlot]
  -- Turn 4: answer 3 parsed, cursor 3 → 4.
  rw [cc_collecting s3 a3 ha3 f3s,
      collect_at_mid ({ appendMsg s3 "user" a3 with
        conversation_turns := s3.conversation_turns + 1 }) 3 (by simp [f3i])
        (by omega) (by omega)] at e4
  simp only [appendMsg_complete, setSlot_complete, f3c, Bool.false_eq_true, if_false] at e4
  have f4s : s4.current_step = some "collecting_info" := by rw [e4]
  have f4i : s4.current_question_index = 4 := by rw [e4]; simp
  have f4c : s4.info_collection_complete = false := by rw [e4]
  have f4v : s4.victim = some (parseAnswer a1 .yes_no) := by rw [e4]; simp [setSlot, f3v]
  have f4l : s4.loss_amount = some (parseAnswer a2 .amount) := by rw [e4]; simp [setSlot, f3l]
  have f4t : s4.time_context = some (parseAnswer a3 .time) := by
    rw [e4]; simp [getLastUserMessage, setSlot]
  -- Turn 5: answer 4 parsed, cursor 4 → 5.
  rw [cc_collecting s4 a4 ha4 f4s,
      collect_at_mid ({ appendMsg s4 "user" a4 with
        conversation_turns := s4.conversation_turns + 1 }) 4 (by simp [f4i])
        (by omega) (by omega)] at e5
  simp only [appendMsg_complete, setSlot_complete, f4c, Bool.false_eq_true, if_false] at e5
  have f5s : s5.current_step = some "collecting_info" := by rw [e5]
  have f5i : s5.current_question_index = 5 := by rw [e5]; simp
  have f5c : s5.info_collection_complete = false := by rw [e5]
  have f5v : s5.victim = some (parseAnswer a1 .yes_no) := by rw [e5]; simp [setSlot, f4v]
  have f5l : s5.loss_amount = some (parseAnswer a2 .amount) := by rw [e5]; simp [setSlot, f4l]
  have f5t : s5.time_context = some (parseAnswer a3 .time) := by rw [e5]; simp [setSlot, f4t]
  have f5f : s5.account_frozen = some (parseAnswer a4 .yes_no) := by
    rw [e5]; simp [getLastUserMessage, setSlot]
  -- Turn 6: answer 5 parsed, collection marked complete, cursor stays 5.
  rw [cc_collecting s5 a5 ha5 f5s,
      collect_at_5_eq ({ appendMsg s5 "user" a5 with
        conversation_turns := s5.conversation_turns + 1 }) (by simp [f5i])] at e6
  simp only [appendMsg_complete, if_true] at e6
  have f6i : s6.current_question_index = 5 := by
    rw [e6]; split_ifs <;> simp [setSlot, f5i]
  have f6c : s6.info_collection_complete = true := by
    rw [e6]; split_ifs <;> simp
  have f6v : s6.victim = some (parseAnswer a1 .yes_no) := by
    rw [e6]; split_ifs <;> simp [setSlot, f5v]
  have f6l : s6.loss_amount = some (parseAnswer a2 .amount) := by
    rw [e6]; split_ifs <;> simp [setSlot, f5l]
  have f6t : s6.time_context = some (parseAnswer a3 .time) := by
    rw [e6]; split_ifs <;> simp [setSlot, f5t]
  have f6f : s6.account_frozen = some (parseAnswer a4 .yes_no) := by
    rw [e6]; split_ifs <;> simp [setSlot, f5f]
  have f6p : s6.reported_to_police = some (parseAnswer a5 .yes_no) := by
    rw [e6]; split_ifs <;> simp [getLastUserMessage, setSlot]
  exact ⟨f1i, f2i, f3i, f4i, f5i, f5c, f6i, f6c, f1m, f2m, f6v, f6l, f6t, f6f, f6p⟩


/-! C3 witness session: priming turn plus five concrete answers. -/

def c3W0 : SState := startConversation "w"

def c3W1 : SState := continueConversation c3W0 "사기를 당했어요"

def c3W2 : SState := continueConversation c3W1 "네"

def c3W3 : SState := continueConversation c3W2 "300만원"

def c3W4 : SState := continueConversation c3W3 "오늘"

def c3W5 : SState := continueConversation c3W4 "아니요"

def c3W6 : SState := continueConversation c3W5 "네"

/-- C3 witness: the slot-filling property at a concrete six-turn session. -/
theorem c3_slot_filling_witness :
    c3W1.current_question_index = 1 ∧ c3W2.current_question_index = 2 ∧
    c3W3.current_question_index = 3 ∧ c3W4.current_question_index = 4 ∧
    c3W5.current_question_index = 5 ∧ c3W5.info_collection_complete = false ∧
    c3W6.current_question_index = 5 ∧ c3W6.info_collection_complete = true ∧
    c3W1.messages.getLast? = some (Msg.mk "assistant" (qAt 0).question) ∧
    c3W2.messages.getLast? = some (Msg.mk "assistant"
      (generateConfirmation (qAt 0).field (parseAnswer "네" .yes_no) ++ "\n\n" ++
        (qAt 1).question)) ∧
    c3W6.victim = some (parseAnswer "네" .yes_no) ∧
    c3W6.loss_amount = some (parseAnswer "300만원" .amount) ∧
    c3W6.time_context = some (parseAnswer "오늘" .time) ∧
    c3W6.account_frozen = some (parseAnswer "아니요" .yes_no) ∧
    c3W6.reported_to_police = some (parseAnswer "네" .yes_no) :=
  c3_slot_filling c3W0 "사기를 당했어요" "네" "300만원" "오늘" "아니요" "네"
    rfl rfl rfl (by decide) (by decide) (by decide) (by decide) (by decide) (by decide)
    c3W1 c3W2 c3W3 c3W4 c3W5 c3W6 rfl rfl rfl rfl rfl rfl

/-! ## C5 — urgency clamping invariant -/

lemma le_foldl_condAddInt (l : List String) (g : String → Bool) (q : Int)
    (hq : 0 ≤ q) (init : Int) :
    init ≤ l.foldl (fun acc w => if g w then acc + q else acc) init := by
  induction l generalizing init with
  | nil => exact le_refl init
  | cons a t ih =>
      simp only [List.foldl]
      refine le_trans ?_ (ih _)
      split_ifs
      · omega
      · exact le_refl init

lemma rulesFallbackUrgency_range (input : String) :
    3 ≤ rulesFallbackUrgency input ∧ rulesFallbackUrgency input ≤ 10 := by
  have h1 : (3:Int) ≤ rbUrg1 (pyLower input) := le_foldl_condAddInt _ _ _ (by omega) 3
  have h2 : rbUrg1 (pyLower input) ≤ rbUrg2 (pyLower input) :=
    le_foldl_condAddInt _ _ _ (by omega) _
  have h3 : rbUrg2 (pyLower input) ≤ rbUrg3 (pyLower input) := by
    unfold rbUrg3
    split_ifs <;> omega
  have h4 : rbUrg3 (pyLower input) ≤ rbUrg4 (pyLower input) := by
    unfold rbUrg4
    split_ifs <;> omega
  unfold rulesFallbackUrgency
  omega

@[simp] lemma enhance_urgency (r : Reply) :
    (enhancePracticalGuidance r).urgency_level = r.urgency_level := rfl

@[simp] lemma enhance_amount (r : Reply) :
    (enhancePracticalGuidance r).amount = r.amount := rfl

@[simp] lemma enhance_time (r : Reply) :
    (enhancePracticalGuidance r).time = r.time := rfl

@[simp] lemma enhance_actions (r : Reply) :
    (enhancePracticalGuidance r).actions_taken = r.actions_taken := rfl

@[simp] lemma safetyNet_urgency (r : Reply) :
    (addEmergencySafetyNet r).urgency_level = r.urgency_level := rfl

/-- The state used in the C5/C1 counterexamples. -/
def c5HState : HState :=
  ⟨[Msg.mk "user" "급해요"], none, 5, 0, none, none, none⟩

/-- An LLM reply reporting an out-of-range urgency. -/
def c5Reply : Reply := ⟨"침착하세요", some 15, none, none, none⟩

/-- C5 counterexample: an LLM reply reporting `urgency_level = 15` is
written into the state unclamped by `_ai_processing_node`, violating the
claimed invariant `urgency_level ∈ [1,10]`. -/
theorem c5_counterexample :
    (aiProcessingNode c5HState (.returned (.ok c5Reply))).urgency_level = 15 ∧
    ¬ (aiProcessingNode c5HState (.returned (.ok c5Reply))).urgency_level ≤ 10 := by
  decide

/-- C5 (amended): the rule-based urgency computations are clamped — the
smart classifier into [1,10], the initial state at 5, the hybrid rules
fallback into [3,10] — but the overwrite from the LLM's reported value
(in `_ai_processing_node` and `_update_session_state`) is stored without
any clamp. -/
theorem c5_amended :
    (∀ t : String, 1 ≤ assessUrgencySmart t ∧ assessUrgencySmart t ≤ 10) ∧
    (∀ sid : String, (createInitialState sid).urgency_level = 5) ∧
    (∀ input : String, 3 ≤ (processWithRulesFallback input).urgency_level.getD 0 ∧
      (processWithRulesFallback input).urgency_level.getD 0 ≤ 10) ∧
    (∀ (s : HState) (r : Reply),
      (aiProcessingNode s (.returned (.ok r))).urgency_level = r.urgency_level.getD 3) ∧
    (∀ (g : GSession) (r : Reply),
      (updateSessionState g r).urgency_level = r.urgency_level.getD 3) := by
  refine ⟨fun t => clamp110_range _, fun sid => rfl, ?_, ?_, fun g r => rfl⟩
  · intro input
    have h := rulesFallbackUrgency_range input
    simpa [processWithRulesFallback] using h
  · intro s r
    simp only [aiProcessingNode, processWithGemini, analyzeAndRespond, Bool.not_true,
      Bool.false_eq_true, if_false]
    split_ifs <;> simp

/-! ## C6 — 80-character cap on LLM replies -/

lemma cap_len (s : String) :
    (if AI_RESPONSE_MAX_LENGTH < s.length then
        pySlice s (AI_RESPONSE_MAX_LENGTH - 3) ++ "..."
      else s).length ≤ AI_RESPONSE_MAX_LENGTH := by
  unfold AI_RESPONSE_MAX_LENGTH pySlice
  split_ifs with h
  · have hl : (String.mk (s.toList.take (80 - 3)) ++ "...").length
        = (s.toList.take (80 - 3)).length + 3 := by
      rw [String.length_append]
      rfl
    have ht : (s.toList.take (80 - 3)).length = min (80 - 3) s.toList.length :=
      List.length_take _ s.toList
    have hs : s.length = s.toList.length := rfl
    omega
  · omega

set_option maxRecDepth 8192 in
/-- C6 counterexample: a successful reply with urgency 9 and a short
response is first enhanced and capped to 80 characters, but the emergency
safety net then appends contacts and the 3-day rule after the cap, so the
delivered assistant message exceeds 80 characters. -/
theorem c6_counterexample :
    AI_RESPONSE_MAX_LENGTH = 80 ∧
    (enhancePracticalGuidance (⟨"급하다", some 9, none, none, none⟩ : Reply)).response.length ≤ 80 ∧
    80 < (processWithGemini ""
      (.returned (.ok (⟨"급하다", some 9, none, none, none⟩ : Reply)))).response.length := by
  decide

/-- C6 (amended): `_enhance_practical_guidance` always outputs at most
`AI_RESPONSE_MAX_LENGTH` (80) characters, and a reply with urgency ≤ 5 and
a response within the limit is delivered verbatim; but the urgency ≥ 8
safety net of `_process_with_gemini` runs after the cap, so the final
message can exceed 80 characters. -/
theorem c6_amended :
    (∀ r : Reply, (enhancePracticalGuidance r).response.length ≤ AI_RESPONSE_MAX_LENGTH) ∧
    (∀ r : Reply, r.urgency_level.getD 5 ≤ 5 → r.response.length ≤ 80 →
      ∀ input : String,
        (processWithGemini input (.returned (.ok r))).response = r.response) := by
  constructor
  · intro r
    exact cap_len _
  · intro r h5 hlen input
    have he : (enhancePracticalGuidance r).response = r.response := by
      simp only [enhancePracticalGuidance]
      rw [if_neg (show ¬ (8:Int) ≤ r.urgency_level.getD 5 by omega),
          if_neg (show ¬ (6:Int) ≤ r.urgency_level.getD 5 by omega)]
      rw [decide_eq_false (show ¬ (7:Int) ≤ r.urgency_level.getD 5 by omega)]
      simp only [Bool.false_and, Bool.false_eq_true, if_false]
      rw [if_neg (show ¬ AI_RESPONSE_MAX_LENGTH < r.response.length by
        unfold AI_RESPONSE_MAX_LENGTH; omega)]
    have hnet : ¬ (8:Int) ≤ (enhancePracticalGuidance r).urgency_level.getD 0 := by
      rw [enhance_urgency]
      cases hru : r.urgency_level with
      | none => simp
      | some u =>
          rw [hru] at h5
          simp only [Option.getD_some] at h5 ⊢
          omega
    simp only [processWithGemini, analyzeAndRespond, Bool.not_true, Bool.false_eq_true,
      if_false, if_neg hnet]
    exact he

/-- C6 amended witness: a short low-urgency reply is delivered verbatim. -/
theorem c6_amended_witness :
    ((⟨"괜찮아요", some 3, none, none, none⟩ : Reply).urgency_level.getD 5 ≤ 5) ∧
    (processWithGemini "" (.returned (.ok (⟨"괜찮아요", some 3, none, none, none⟩ : Reply)))).response
      = "괜찮아요" :=
  ⟨by decide, c6_amended.2 ⟨"괜찮아요", some 3, none, none, none⟩ (by decide) (by decide) ""⟩

/-! ## C1 — fallback on collaborator failure, one reply per turn -/

/-- C1 counterexample: when the LLM's reply text fails JSON parsing, the
delivered assistant message is the raw LLM text (via
`_parse_raw_response`), not the rule-based fallback reply and not the fixed
emergency fallback — so "malformed JSON falls back to the rule-based path"
is false, although exactly one reply is still produced. -/
theorem c1_counterexample :
    (processWithGemini "그냥 문의입니다" (.returned (.malformed "그냥 텍스트"))).response
      = "그냥 텍스트" ∧
    (processWithGemini "그냥 문의입니다" .callRaised).response ≠ "그냥 텍스트" ∧
    (analyzeAndRespond true "그냥 문의입니다" .exn).response ≠ "그냥 텍스트" := by
  decide

/-- C1 (amended): whatever the collaborator call's outcome — raised call,
API exception, malformed JSON, or a parsed reply — `_ai_processing_node`
appends exactly one assistant message for the turn (never zero, never two)
and the session continues (`current_step = "ai_processed"`, turn counter
advanced); a raised call falls back to the rule-based reply and an API
exception to the fixed emergency fallback, while malformed JSON produces a
reply built from the raw LLM text. -/
theorem c1_amended (s : HState) (o : LLMOutcome) :
    (aiProcessingNode s o).messages =
      s.messages ++ [Msg.mk "assistant" (processWithGemini (getLastUserMessageH s) o).response] ∧
    (aiProcessingNode s o).current_step = some "ai_processed" ∧
    (aiProcessingNode s o).conversation_turns = s.conversation_turns + 1 ∧
    processWithGemini (getLastUserMessageH s) .callRaised =
      processWithRulesFallback (getLastUserMessageH s) ∧
    analyzeAndRespond true (getLastUserMessageH s) .exn = practicalEmergencyFallback ∧
    (∀ raw : String, analyzeAndRespond true (getLastUserMessageH s) (.malformed raw) =
      enhancePracticalGuidance (parseRawResponse raw)) := by
  refine ⟨?_, ?_, ?_, rfl, rfl, fun raw => rfl⟩ <;>
    · simp only [aiProcessingNode]
      split_ifs <;> rfl

/-! ## C7 — context-mismatch detector and reasons list -/

lemma le_foldl_condAddNat (l : List String) (g : String → Bool) (q : Nat)
    (init : Nat) :
    init ≤ l.foldl (fun acc w => if g w then acc + q else acc) init := by
  induction l generalizing init with
  | nil => exact le_refl init
  | cons a t ih =>
      simp only [List.foldl]
      refine le_trans ?_ (ih _)
      split_ifs
      · omega
      · exact le_refl init

/-- C7 counterexample: last assistant message ends in a question and the
user reply has no yes/no token, so the context-mismatch score is 0.2 > 0 —
but the decision's reasons list is empty (no detector exceeded its
threshold), contradicting "reasons includes a context-mismatch entry". -/
theorem c7_counterexample :
    0 < detectContextMismatch "몰루" "계좌 지급정지 신청을 하셨나요?" ∧
    (shouldUseGemini "몰루" [] "계좌 지급정지 신청을 하셨나요?").reasons = [] ∧
    (shouldUseGemini "몰루" [] "계좌 지급정지 신청을 하셨나요?").use_gemini = false := by
  decide

/-- C7 (amended): under the claim's hypotheses the context-mismatch score
is strictly positive (at least the 0.2 bonus of the unanswered-question
rule), but a context-mismatch entry appears in `reasons` exactly when that
score exceeds the 0.7 threshold (7 in tenths). -/
theorem c7_amended (userInput lastAi : String) (history : List Msg)
    (hq : containsS "?" lastAi = true)
    (hny : (yesNoTokens.any fun w => containsS w (pyLower userInput)) = false) :
    0 < detectContextMismatch userInput lastAi ∧
    (((shouldUseGemini userInput history lastAi).reasons.any
        fun p => p.1 = "컨텍스트 불일치") = true ↔
      7 < detectContextMismatch userInput lastAi) := by
  constructor
  · have hne : lastAi ≠ "" := by
      intro h
      rw [h] at hq
      exact absurd hq (by decide)
    unfold detectContextMismatch
    rw [if_neg hne]
    simp only [hq, hny, Bool.not_false, Bool.and_self, if_true, Bool.true_and]
    refine lt_min ?_ (by norm_num)
    split_ifs <;> omega
  · simp only [shouldUseGemini]
    by_cases h1 : 7 < detectContextMismatch userInput lastAi <;>
      by_cases h2 : 3 < detectExplanationRequest userInput <;>
        by_cases h3 : 3 < detectDissatisfaction userInput history <;>
          by_cases h4 : 4 < detectRepetition userInput history <;>
            by_cases h5 : 5 < detectComplexity userInput <;>
              simp [h1, h2, h3, h4, h5]

/-- C7 amended witness at concrete inputs. -/
theorem c7_amended_witness :
    0 < detectContextMismatch "몰루" "이 방법 시도해 보실래요?" ∧
    (((shouldUseGemini "몰루" [] "이 방법 시도해 보실래요?").reasons.any
        fun p => p.1 = "컨텍스트 불일치") = true ↔
      7 < detectContextMismatch "몰루" "이 방법 시도해 보실래요?") :=
  c7_amended "몰루" "이 방법 시도해 보실래요?" [] (by decide) (by decide)

end Scamout
